import Mathlib

/-!
Verification of the go-iec104 wire codec and client sequence-number logic.

The Go source is shallowly embedded: wire bytes are natural numbers below
256, Go unsigned integer arithmetic is modelled with explicit `% 2^w`
reductions at the points where Go truncates, fallible operations return
`Except`, and Go runtime faults (slice bounds violations, integer division
by zero) are modelled by the distinguished outcome `PFail.goPanic`.
-/

namespace IEC104

/-- Outcome of a fallible Go operation: either an ordinary returned
error value, or a runtime fault (slice out of range, division by zero). -/
inductive PFail where
  | parseError : PFail
  | goPanic : PFail
deriving DecidableEq

instance {ε α : Type} [DecidableEq ε] [DecidableEq α] : DecidableEq (Except ε α) := by
  intro a b
  cases a with
  | error e =>
    cases b with
    | error f => exact decidable_of_iff (e = f) (by simp)
    | ok y => exact isFalse (by simp)
  | ok x =>
    cases b with
    | error f => exact isFalse (by simp)
    | ok y => exact decidable_of_iff (x = y) (by simp)

/-- Go slice expression `b[lo:hi]`: faults unless `lo ≤ hi ≤ len(b)`. -/
def goSlice (b : List Nat) (lo hi : Nat) : Except PFail (List Nat) :=
  if lo ≤ hi ∧ hi ≤ b.length then .ok ((b.drop lo).take (hi - lo)) else .error .goPanic

/-- Go integer division: faults on a zero divisor. -/
def goDiv (a b : Nat) : Except PFail Nat :=
  if b = 0 then .error .goPanic else .ok (a / b)

/-- `serializeLittleEndianUint16` (define.go): the two little-endian bytes
of a uint16 value. -/
def serializeLittleEndianUint16 (i : Nat) : List Nat :=
  [i % 256, i / 256 % 256]

/-- `parseLittleEndianUint16` (define.go). -/
def parseLittleEndianUint16 (b : List Nat) : Nat :=
  b.getD 0 0 + 256 * b.getD 1 0

/-- `serializeBigEndianUint16` (define.go): the two big-endian bytes of a
uint16 value. -/
def serializeBigEndianUint16 (i : Nat) : List Nat :=
  [i / 256 % 256, i % 256]

/-- Decoded frame: the result of `APCI.Parse` (server.go), a tagged variant
for the I-format, S-format and U-format frames. -/
inductive Frame where
  | i (sendSN recvSN : Nat) : Frame
  | s (recvSN : Nat) : Frame
  | u (cmd : List Nat) : Frame
deriving DecidableEq

/-- `APCI.parseIFrame` (server.go lines 126-133):
`send := uint16(apci.Cf1>>1 | apci.Cf2<<7)` and likewise for `recv`.
The shift and the bitwise or happen at byte width before the widening to
uint16, exactly as in Go: `Cf2<<7` keeps only the low bit of `Cf2`
(`cf2 * 128 % 256`). -/
def APCI.parseIFrame (cf1 cf2 cf3 cf4 : Nat) : Frame :=
  .i (cf1 / 2 ||| cf2 * 128 % 256) (cf3 / 2 ||| cf4 * 128 % 256)

/-- `APCI.parseSFrame` (server.go): `recv := uint16(apci.Cf3>>1 | apci.Cf4<<7)`. -/
def APCI.parseSFrame (cf3 cf4 : Nat) : Frame :=
  .s (cf3 / 2 ||| cf4 * 128 % 256)

/-- `APCI.parseUFrame` (server.go): the four control fields verbatim. -/
def APCI.parseUFrame (cf1 cf2 cf3 cf4 : Nat) : Frame :=
  .u [cf1, cf2, cf3, cf4]

/-- `APCI.Parse` (server.go lines 105-121): classify the frame format from
the low bits of control field 1 (FrameTypeI = 0, FrameTypeS = 1,
FrameTypeU = 3); the default branch reports an unknown frame type. -/
def APCI.Parse (cf1 cf2 cf3 cf4 : Nat) : Except PFail Frame :=
  if cf1 &&& 0x1 = 0 then .ok (APCI.parseIFrame cf1 cf2 cf3 cf4)
  else if cf1 &&& 0x3 = 1 then .ok (APCI.parseSFrame cf3 cf4)
  else if cf1 &&& 0x3 = 3 then .ok (APCI.parseUFrame cf1 cf2 cf3 cf4)
  else .error .parseError

/-- `IFrame.Data` (server.go lines 224-227): serialize the four control
fields from the two uint16 sequence numbers; `SendSN<<1` wraps at 2^16. -/
def IFrame.Data (sendSN recvSN : Nat) : List Nat :=
  let sBytes := serializeLittleEndianUint16 (sendSN * 2 % 65536)
  let rBytes := serializeLittleEndianUint16 (recvSN * 2 % 65536)
  [sBytes.getD 0 0, sBytes.getD 1 0, rBytes.getD 0 0, rBytes.getD 1 0]

/-- `SFrame.Data` (server.go lines 253-255): the Go source emits
`byte(0b1), byte(0b0), byte(s.RecvSN & 0b01111111), byte(s.RecvSN >> 7)`;
the third byte masks the low seven bits without any left shift. -/
def SFrame.Data (recvSN : Nat) : List Nat :=
  [1, 0, recvSN &&& 0b01111111, recvSN / 128 % 256]

/-- `UFrameFunctionTestFA` (server.go): the TESTFR activation U-frame body. -/
def UFrameFunctionTestFA : List Nat := [0x43, 0x00, 0x00, 0x00]

/-- Decoded information element: the structural fields of Go's
`InformationElement` that the object parser populates (`TypeID`, `Address`,
the outbound `Raw` bytes and the element's wire-byte region `data`). The
float64 `Value`, `Quality` and `Ts` decodings are per-type refinements of
`data` (see `InformationElement.getCP56Time2a` below for the timestamp
part relevant to the claims). -/
structure InformationElement where
  typeID : Nat
  address : Nat
  raw : List Nat
  data : List Nat
deriving DecidableEq

/-- `InformationObject` (asdu_information_object.go): a 24-bit information
object address plus its elements. -/
structure InformationObject where
  ioa : Nat
  ies : List InformationElement
deriving DecidableEq

/-- `InformationObject.parseIOA` (asdu_information_object.go):
`binary.LittleEndian.Uint32` of the three wire bytes padded with 0x00. -/
def InformationObject.parseIOA (b : List Nat) : Nat :=
  b.getD 0 0 + 256 * b.getD 1 0 + 65536 * b.getD 2 0

/-- `InformationObject.serializeIOA` (asdu_information_object.go): the
first three little-endian bytes of the address as uint32. -/
def InformationObject.serializeIOA (ioa : Nat) : List Nat :=
  [ioa % 256, ioa / 256 % 256, ioa / 65536 % 256]

/-- `InformationObject.Data` (asdu_information_object.go): serialized IOA
followed by each element's `Raw` bytes. -/
def InformationObject.Data (o : InformationObject) : List Nat :=
  InformationObject.serializeIOA o.ioa ++ (o.ies.map (fun ie => ie.raw)).flatten

/-- `ASDU` (source part_001): the six-byte data unit identifier fields plus
the decoded objects (`ios`) and the flattened element list (`Signals`). -/
structure ASDU where
  typeID : Nat
  sq : Bool
  nObjs : Nat
  t : Bool
  pn : Bool
  cot : Nat
  org : Nat
  coa : Nat
  ios : List InformationObject
  signals : List InformationElement
deriving DecidableEq

/-- `ASDU.parseTypeID` (part_001): the first header byte verbatim. -/
def ASDU.parseTypeID (d : Nat) : Nat := d

/-- `ASDU.parseSQ` (part_001): `(data & (1 << 7)) == 1<<7`. -/
def ASDU.parseSQ (d : Nat) : Bool := d &&& 128 == 128

/-- `ASDU.parseNOO` (part_001): `data & 0b1111111`. -/
def ASDU.parseNOO (d : Nat) : Nat := d &&& 0b1111111

/-- `ASDU.parseT` (part_001): `(data & (1 << 7)) == 1<<7`. -/
def ASDU.parseT (d : Nat) : Bool := d &&& 128 == 128

/-- `ASDU.parsePN` (part_001): `(data & (1 << 6)) == 1<<6`. -/
def ASDU.parsePN (d : Nat) : Bool := d &&& 64 == 64

/-- `ASDU.parseCOT` (part_001): `COT(data & 0b111111)`. -/
def ASDU.parseCOT (d : Nat) : Nat := d &&& 0b111111

/-- `ASDU.parseORG` (part_001): the byte verbatim. -/
def ASDU.parseORG (d : Nat) : Nat := d

/-- `ASDU.parseCOA` (part_001): little-endian uint16 of the two bytes. -/
def ASDU.parseCOA (b : List Nat) : Nat := parseLittleEndianUint16 b

/-- The SQ=0 loop of `ASDU.parseInformationObjects`
(asdu_information_object.go lines 116-132): for each index, slice the IOA
bytes `asduBody[i*size : i*size+3]` and the element region
`asduBody[i*size+IOALength : (i+1)*size]`, with Go slice-bounds
semantics. -/
def parseObjectsSq0 (typeID size : Nat) (body : List Nat) :
    List Nat → Except PFail (List InformationObject × List InformationElement)
  | [] => .ok ([], [])
  | idx :: rest =>
    match goSlice body (idx * size) (idx * size + 3) with
    | .error e => .error e
    | .ok ioaBytes =>
      match goSlice body (idx * size + 3) ((idx + 1) * size) with
      | .error e => .error e
      | .ok elemBytes =>
        let addr := InformationObject.parseIOA ioaBytes
        let ie : InformationElement := ⟨typeID, addr, [], elemBytes⟩
        match parseObjectsSq0 typeID size body rest with
        | .error e => .error e
        | .ok (objs, sigs) => .ok (⟨addr, [ie]⟩ :: objs, ie :: sigs)

/-- The SQ=1 loop of `ASDU.parseInformationObjects`
(asdu_information_object.go lines 106-115): element regions
`asduBody[IOALength+i*size : IOALength+(i+1)*size]` with synthetic
addresses `ioa + i`. -/
def parseElementsSq1 (typeID size baseIOA : Nat) (body : List Nat) :
    List Nat → Except PFail (List InformationElement)
  | [] => .ok []
  | idx :: rest =>
    match goSlice body (3 + idx * size) (3 + (idx + 1) * size) with
    | .error e => .error e
    | .ok elemBytes =>
      let ie : InformationElement := ⟨typeID, baseIOA + idx, [], elemBytes⟩
      match parseElementsSq1 typeID size baseIOA body rest with
      | .error e => .error e
      | .ok sigs => .ok (ie :: sigs)

/-- `ASDU.parseInformationObjects` (asdu_information_object.go lines
93-134), with Go runtime-fault semantics. SQ=1: slice the three IOA bytes,
then `size := (len(asduBody) - IOALength) / int(asdu.nObjs)` — a division
by zero when `nObjs` is 0 — then the element loop; the assembled object is
never appended to `ios` (the Go code appends to `ios` only in the SQ=0
branch). SQ=0: `size := len(asduBody) / int(asdu.nObjs)` then the object
loop. -/
def ASDU.parseInformationObjects (typeID : Nat) (sq : Bool) (nObjs : Nat)
    (body : List Nat) :
    Except PFail (List InformationObject × List InformationElement) :=
  if sq then
    match goSlice body 0 3 with
    | .error e => .error e
    | .ok ioaBytes =>
      match goDiv (body.length - 3) nObjs with
      | .error e => .error e
      | .ok size =>
        match parseElementsSq1 typeID size (InformationObject.parseIOA ioaBytes)
            body (List.range nObjs) with
        | .error e => .error e
        | .ok sigs => .ok ([], sigs)
  else
    match goDiv body.length nObjs with
    | .error e => .error e
    | .ok size => parseObjectsSq0 typeID size body (List.range nObjs)

/-- `ASDU.Parse` (source part_001 lines 53-75): reject fewer than six
header bytes, decode the data unit identifier fields, then parse the
information objects. The Go function ignores the object parser's outcome
and returns nil, but a runtime fault inside it propagates (modelled as
`PFail.goPanic`). -/
def ASDU.Parse (data : List Nat) : Except PFail ASDU :=
  if data.length < 6 then .error .parseError
  else
    let typeID := ASDU.parseTypeID (data.getD 0 0)
    let sq := ASDU.parseSQ (data.getD 1 0)
    let nObjs := ASDU.parseNOO (data.getD 1 0)
    let t := ASDU.parseT (data.getD 2 0)
    let pn := ASDU.parsePN (data.getD 2 0)
    let cot := ASDU.parseCOT (data.getD 2 0)
    let org := ASDU.parseORG (data.getD 3 0)
    let coa := ASDU.parseCOA [data.getD 4 0, data.getD 5 0]
    match ASDU.parseInformationObjects typeID sq nObjs (data.drop 6) with
    | .error e => .error e
    | .ok (objs, sigs) => .ok ⟨typeID, sq, nObjs, t, pn, cot, org, coa, objs, sigs⟩

/-- `ASDU.Data` (source part_001 lines 77-119). Note the second and third
bytes: the Go source combines the SQ bit with NOO, and the T/PN bits with
COT, using bitwise AND (`(0b1 << 7) & asdu.nObjs`, `(0b11 << 6) & cot`,
`(0b1 << 7) & cot`, `(0b1 << 6) & cot`). -/
def ASDU.Data (a : ASDU) : List Nat :=
  [a.typeID,
   if a.sq then 128 &&& a.nObjs else a.nObjs,
   if a.t && a.pn then 192 &&& a.cot
   else if a.t then 128 &&& a.cot
   else if a.pn then 64 &&& a.cot
   else a.cot,
   a.org]
  ++ serializeLittleEndianUint16 a.coa
  ++ (a.ios.map InformationObject.Data).flatten

/-- `APDU` (apdu.go): the decoded frame and, for I-frames, the ASDU. -/
structure APDU where
  frame : Frame
  asdu : Option ASDU
deriving DecidableEq

/-- `APDU.Parse` (apdu.go lines 47-74): at least `ApduHeaderLen = 4` bytes,
classify the APCI from the first four; S-format and U-format frames carry
no ASDU; otherwise parse the ASDU from the remaining bytes. -/
def APDU.Parse (data : List Nat) : Except PFail APDU :=
  if data.length < 4 then .error .parseError
  else
    match APCI.Parse (data.getD 0 0) (data.getD 1 0) (data.getD 2 0) (data.getD 3 0) with
    | .error e => .error e
    | .ok f =>
      match f with
      | .s r => .ok ⟨.s r, none⟩
      | .u c => .ok ⟨.u c, none⟩
      | .i sn rn =>
        match ASDU.Parse (data.drop 4) with
        | .error e => .error e
        | .ok a => .ok ⟨.i sn rn, some a⟩

/-- The calendar fields computed by `InformationElement.getCP56Time2a`
(asdu_information_element.go lines 143-158) and fed to `time.Date`. -/
structure CP56Time2aFields where
  nanosecond : Nat
  second : Nat
  minute : Nat
  hour : Nat
  day : Nat
  month : Nat
  year : Nat
deriving DecidableEq

/-- `InformationElement.getCP56Time2a` (asdu_information_element.go lines
143-158) over the seven bytes of the element region. The year check
`year < 70` is performed after 2000 has already been added, exactly as in
the Go source. -/
def InformationElement.getCP56Time2a (b : List Nat) : CP56Time2aFields :=
  let millisecond := parseLittleEndianUint16 [b.getD 0 0, b.getD 1 0]
  let nanosecond := millisecond % 1000 * 1000000
  let second := millisecond / 1000
  let minute := b.getD 2 0 &&& 0x3f
  let hour := b.getD 3 0 &&& 0x1f
  let day := b.getD 4 0 &&& 0x1f
  let month := b.getD 5 0 &&& 0x0f
  let year := (b.getD 6 0 &&& 0x7f) + 2000
  let year2 := if year < 70 then year + 100 else year
  ⟨nanosecond, second, minute, hour, day, month, year2⟩

/-- The client's two sequence counters (client.go: `ssn, rsn uint16`). -/
structure ClientState where
  ssn : Nat
  rsn : Nat
deriving DecidableEq

/-- `Client.incRsn` (client.go lines 497-502): uint16 increment of `rsn`,
reset to 0 when the incremented value reaches `1<<15`. -/
def Client.incRsn (c : ClientState) : ClientState :=
  let r := (c.rsn + 1) % 65536
  if r = 32768 then ⟨c.ssn, 0⟩ else ⟨c.ssn, r⟩

/-- `Client.incSsn` (client.go lines 504-509): uint16 increment of `ssn`,
but the wrap test reads `c.rsn == 1<<15`, exactly as in the Go source. -/
def Client.incSsn (c : ClientState) : ClientState :=
  let s := (c.ssn + 1) % 65536
  if c.rsn = 32768 then ⟨0, c.rsn⟩ else ⟨s, c.rsn⟩

/-- Counter states reachable from the post-connect state
(`c.ssn, c.rsn = 0, 0`, client.go line 50) by the increment operations. -/
inductive ClientState.Reachable : ClientState → Prop where
  | init : ClientState.Reachable ⟨0, 0⟩
  | stepS : ∀ c, ClientState.Reachable c → ClientState.Reachable (Client.incSsn c)
  | stepR : ∀ c, ClientState.Reachable c → ClientState.Reachable (Client.incRsn c)

/-- `Client.buildFrame` (client.go lines 488-495): prepend the start byte
0x68 and the low byte of the big-endian uint16 length. -/
def Client.buildFrame (data : List Nat) : List Nat :=
  [0x68, (serializeBigEndianUint16 (data.length % 65536)).getD 1 0] ++ data

/-- `Client.sendSFrame` (client.go lines 461-465): the enqueued bytes. -/
def Client.sendSFrame (recvSN : Nat) : List Nat :=
  Client.buildFrame (SFrame.Data recvSN)

/-- `Client.SendTestFrame` (client.go lines 456-460): build an S-frame from
the client's current receive sequence number and enqueue its
serialization. -/
def Client.SendTestFrame (c : ClientState) : List Nat :=
  Client.sendSFrame c.rsn

/-- The 14 APDU body bytes of the counter-interrogation-termination sample
`68 0E 4E 14 7C 00 65 01 0A 00 0C 00 00 00 00 05` after the framer has
consumed the start byte and the length octet. -/
def counterInterrogationSample : List Nat :=
  [0x4E, 0x14, 0x7C, 0x00, 0x65, 0x01, 0x0A, 0x00, 0x0C, 0x00, 0x00, 0x00, 0x00, 0x05]

/-- An ASDU whose body length (9) is not a multiple of NOO (2), SQ=0. -/
def inexactSample : List Nat :=
  [0x65, 0x02, 0x0A, 0x00, 0x0C, 0x00, 0, 0, 0, 5, 0, 0, 0, 6, 9]

/-- Claim C1, evidence against it: the I-frame control-field round trip
fails. Serializing N(S)=256, N(R)=0 with `IFrame.Data` and decoding the
four control fields with `APCI.parseIFrame` yields (0, 0), not (256, 0):
the decoder's byte-width arithmetic drops every sequence-number bit above
bit 7. -/
theorem c1_iframe_roundtrip_failure :
    APCI.parseIFrame ((IFrame.Data 256 0).getD 0 0) ((IFrame.Data 256 0).getD 1 0)
        ((IFrame.Data 256 0).getD 2 0) ((IFrame.Data 256 0).getD 3 0) = Frame.i 0 0 ∧
    Frame.i 0 0 ≠ Frame.i 256 0 :=
  ⟨by decide, by decide⟩

/-- Claim C2, counterexample to the stated decoding: parsing the sample
APDU does not produce an I-frame with N(S)=10 (with the remaining fields
as claimed); the code decodes N(S)=39. -/
theorem c2_sample_decode_counterexample :
    APDU.Parse counterInterrogationSample ≠
      Except.ok ⟨Frame.i 10 62, some ⟨0x65, false, 1, false, false, 10, 0, 12,
        [⟨0, [⟨0x65, 0, [], [0x05]⟩]⟩], [⟨0x65, 0, [], [0x05]⟩]⟩⟩ := by
  decide

/-- Claim C2 as amended: parsing the sample APDU yields an I-frame with
N(S)=39 (not 10) and N(R)=62, and an ASDU with type ID 101 (CCiNa1),
SQ=false, NOO=1, COT=10 (ActTerm), ORG=0, COA=12, exactly one information
object with IOA=0 whose single element carries the QCC byte 0x05. -/
theorem c2_sample_decode_amended :
    APDU.Parse counterInterrogationSample =
      Except.ok ⟨Frame.i 39 62, some ⟨0x65, false, 1, false, false, 10, 0, 12,
        [⟨0, [⟨0x65, 0, [], [0x05]⟩]⟩], [⟨0x65, 0, [], [0x05]⟩]⟩⟩ := by
  decide

/-- States with rsn = 0 and ssn up to 32767 are reachable: repeated
`Client.incSsn` from the post-connect state. -/
theorem reachable_ssn_rsn_zero : ∀ n : Nat, n ≤ 32767 → ClientState.Reachable ⟨n, 0⟩ := by
  intro n
  induction n with
  | zero => intro _; exact .init
  | succ k ih =>
    intro h
    have hk : ClientState.Reachable ⟨k, 0⟩ := ih (by omega)
    have hstep := ClientState.Reachable.stepS _ hk
    have heq : Client.incSsn ⟨k, 0⟩ = ⟨k + 1, 0⟩ := by
      simp only [Client.incSsn]
      rw [if_neg (by omega)]
      rw [Nat.mod_eq_of_lt (by omega)]
    rwa [heq] at hstep

/-- Claim C3, evidence against it: the reachable state ssn=32767, rsn=0
(32767 sent I-frames, none received) does not wrap on the next `incSsn`:
the wrap test reads `rsn`, so ssn becomes 32768 — not strictly less than
2^15 as claimed. (`incRsn` does keep rsn below 2^15.) -/
theorem c3_ssn_wrap_failure :
    ClientState.Reachable ⟨32767, 0⟩ ∧
    (Client.incSsn ⟨32767, 0⟩).ssn = 32768 ∧
    ¬ (Client.incSsn ⟨32767, 0⟩).ssn < 2 ^ 15 :=
  ⟨reachable_ssn_rsn_zero 32767 (by omega), by decide, by decide⟩

/-- Claim C4, evidence against it: `ASDU.Data` combines the SQ bit with
NOO (and the T/PN bits with COT) by bitwise AND, not OR. With sq=true and
nObjs=1 the emitted second byte is 0x80 AND 1 = 0, not 0x80 OR 1 = 0x81;
with t=true and cot=3 the emitted third byte is 0x80 AND 3 = 0, not
0x83. -/
theorem c4_asdu_header_bits_failure :
    (ASDU.Data ⟨100, true, 1, false, false, 6, 0, 1, [], []⟩).getD 1 0 = 0 ∧
    (0x80 ||| 1 : Nat) = 0x81 ∧ (0 : Nat) ≠ 0x81 ∧
    (ASDU.Data ⟨1, false, 1, true, false, 3, 0, 1, [], []⟩).getD 2 0 = 0 ∧
    (0x80 ||| 3 : Nat) = 0x83 ∧ (0 : Nat) ≠ 0x83 := by
  decide

/-- Claim C5, evidence against it: the S-frame serializer emits
`RecvSN & 0x7F` as the third control field without the left shift, so for
N(R)=1 it produces 01 00 01 00 instead of the claimed 01 00 02 00 (and the
produced CF3 has its lowest bit set, which the S-frame layout forbids). -/
theorem c5_sframe_data_failure :
    SFrame.Data 1 = [0x01, 0x00, 0x01, 0x00] ∧
    [0x01, 0x00, 0x01, 0x00] ≠ [0x01, 0x00, (1 <<< 1) &&& 0xFE, (1 >>> 7) &&& 0xFF] := by
  decide

/-- Claim C6, evidence against it: an SQ=0 ASDU whose body length 9 is not
divisible by NOO=2 is not rejected: `ASDU.Parse` succeeds, the per-object
width is floored to 4, two objects are decoded and the trailing byte is
silently dropped. -/
theorem c6_inexact_division_accepted :
    (inexactSample.drop 6).length % ASDU.parseNOO (inexactSample.getD 1 0) ≠ 0 ∧
    ASDU.Parse inexactSample =
      Except.ok ⟨0x65, false, 2, false, false, 10, 0, 12,
        [⟨0, [⟨0x65, 0, [], [5]⟩]⟩, ⟨0, [⟨0x65, 0, [], [6]⟩]⟩],
        [⟨0x65, 0, [], [5]⟩, ⟨0x65, 0, [], [6]⟩]⟩ := by
  decide

set_option maxRecDepth 4096 in
/-- Claim C7: the APCI frame classification is exhaustive. For every byte
value of control field 1, exactly one of the I-frame (CF1 and 0x01 = 0),
S-frame (CF1 and 0x03 = 1) and U-frame (CF1 and 0x03 = 3) patterns
applies, and `APCI.Parse` never takes the unknown-frame-type branch. -/
theorem c7_frame_classification_exhaustive (cf1 cf2 cf3 cf4 : Nat) (h : cf1 < 256) :
    ((cf1 &&& 0x1 = 0 ∧ cf1 &&& 0x3 ≠ 1 ∧ cf1 &&& 0x3 ≠ 3) ∨
     (cf1 &&& 0x1 ≠ 0 ∧ cf1 &&& 0x3 = 1 ∧ cf1 &&& 0x3 ≠ 3) ∨
     (cf1 &&& 0x1 ≠ 0 ∧ cf1 &&& 0x3 ≠ 1 ∧ cf1 &&& 0x3 = 3)) ∧
    APCI.Parse cf1 cf2 cf3 cf4 ≠ Except.error PFail.parseError := by
  have key : ∀ c : Nat, c < 256 →
      ((c &&& 0x1 = 0 ∧ c &&& 0x3 ≠ 1 ∧ c &&& 0x3 ≠ 3) ∨
       (c &&& 0x1 ≠ 0 ∧ c &&& 0x3 = 1 ∧ c &&& 0x3 ≠ 3) ∨
       (c &&& 0x1 ≠ 0 ∧ c &&& 0x3 ≠ 1 ∧ c &&& 0x3 = 3)) := by decide
  refine ⟨key cf1 h, ?_⟩
  unfold APCI.Parse
  rcases key cf1 h with ⟨h1, -, -⟩ | ⟨h1, h2, -⟩ | ⟨h1, h2, h3⟩
  · rw [if_pos h1]
    exact fun hc => Except.noConfusion hc
  · rw [if_neg h1, if_pos h2]
    exact fun hc => Except.noConfusion hc
  · rw [if_neg h1, if_neg h2, if_pos h3]
    exact fun hc => Except.noConfusion hc

/-- Witness for claim C7 at the concrete control field 0x43 (TESTFR act). -/
theorem c7_frame_classification_exhaustive_witness :
    (0x43 : Nat) < 256 ∧
    ((((0x43 : Nat) &&& 0x1 = 0 ∧ (0x43 : Nat) &&& 0x3 ≠ 1 ∧ (0x43 : Nat) &&& 0x3 ≠ 3) ∨
      ((0x43 : Nat) &&& 0x1 ≠ 0 ∧ (0x43 : Nat) &&& 0x3 = 1 ∧ (0x43 : Nat) &&& 0x3 ≠ 3) ∨
      ((0x43 : Nat) &&& 0x1 ≠ 0 ∧ (0x43 : Nat) &&& 0x3 ≠ 1 ∧ (0x43 : Nat) &&& 0x3 = 3)) ∧
     APCI.Parse 0x43 0 0 0 ≠ Except.error PFail.parseError) :=
  ⟨by decide, c7_frame_classification_exhaustive 0x43 0 0 0 (by decide)⟩

/-- Claim C8, evidence against it: the legacy-year branch of
`InformationElement.getCP56Time2a` is dead code. The `year < 70` test runs
after 2000 has been added, so it never fires: for every raw year byte the
decoded year is (v and 0x7F) + 2000; in particular the raw value 0 decodes
to 2000, not to the claimed 2100. -/
theorem c8_cp56_year_window_dead :
    (∀ v : Nat,
      (InformationElement.getCP56Time2a [0, 0, 0, 0, 0, 0, v]).year = (v &&& 0x7f) + 2000) ∧
    (InformationElement.getCP56Time2a [0, 0, 0, 0, 0, 0, 0]).year = 2000 ∧
    (2000 : Nat) ≠ 2100 := by
  refine ⟨?_, by decide, by decide⟩
  intro v
  show (if (v &&& 0x7f) + 2000 < 70 then (v &&& 0x7f) + 2000 + 100
        else (v &&& 0x7f) + 2000) = (v &&& 0x7f) + 2000
  rw [if_neg (by omega)]

/-- With NOO = 0 the object parser always faults: the SQ=0 branch divides
the body length by zero immediately; the SQ=1 branch either faults slicing
the three IOA bytes or divides by zero right after. -/
theorem parseInformationObjects_nObjs_zero (typeID : Nat) (sq : Bool) (body : List Nat) :
    ASDU.parseInformationObjects typeID sq 0 body = Except.error PFail.goPanic := by
  cases sq with
  | false => simp [ASDU.parseInformationObjects, goDiv]
  | true =>
    by_cases h : 3 ≤ body.length
    · have hs : goSlice body 0 3 = Except.ok ((body.drop 0).take 3) := by
        simp [goSlice, h]
      simp [ASDU.parseInformationObjects, hs, goDiv]
    · have hs : goSlice body 0 3 = Except.error PFail.goPanic := by
        simp only [goSlice]
        rw [if_neg (by omega)]
      simp [ASDU.parseInformationObjects, hs]

/-- Claim C9: an ASDU whose second header byte encodes NOO = 0 passes the
header check of `ASDU.Parse` (it is not rejected), and
`parseInformationObjects` then divides by zero: the parse ends in the
runtime-fault outcome rather than an error return. -/
theorem c9_noo_zero_panics (data : List Nat) (h6 : 6 ≤ data.length)
    (h0 : ASDU.parseNOO (data.getD 1 0) = 0) :
    ASDU.Parse data = Except.error PFail.goPanic := by
  simp only [ASDU.Parse]
  rw [if_neg (by omega), h0, parseInformationObjects_nObjs_zero]

/-- Witness for claim C9 at a concrete six-byte ASDU with NOO byte 0. -/
theorem c9_noo_zero_panics_witness :
    6 ≤ ([101, 0, 10, 0, 12, 0] : List Nat).length ∧
    ASDU.parseNOO (([101, 0, 10, 0, 12, 0] : List Nat).getD 1 0) = 0 ∧
    ASDU.Parse [101, 0, 10, 0, 12, 0] = Except.error PFail.goPanic :=
  ⟨by decide, by decide, c9_noo_zero_panics [101, 0, 10, 0, 12, 0] (by decide) (by decide)⟩

/-- Claim C10: `Client.SendTestFrame` does not emit a TESTFR U-frame. For
every client state it enqueues the serialization of an S-format frame built
from the current receive sequence number: the first control field is 0x01
(S-frame pattern, not the TESTFR byte 0x43) and the last two control
fields are the code's encoding of the client's rsn. -/
theorem c10_sendtestframe_is_sframe (c : ClientState) :
    Client.SendTestFrame c = Client.buildFrame (SFrame.Data c.rsn) ∧
    (Client.SendTestFrame c).getD 2 0 = 0x01 ∧
    (Client.SendTestFrame c).getD 2 0 &&& 0x3 = 1 ∧
    (Client.SendTestFrame c).getD 2 0 ≠ UFrameFunctionTestFA.getD 0 0 ∧
    (Client.SendTestFrame c).getD 4 0 = c.rsn &&& 0x7f ∧
    (Client.SendTestFrame c).getD 5 0 = c.rsn / 128 % 256 := by
  refine ⟨rfl, rfl, ?_, ?_, rfl, rfl⟩
  · show (1 : Nat) &&& 0x3 = 1
    decide
  · show (1 : Nat) ≠ (0x43 : Nat)
    decide

end IEC104
